import Mathlib

/-!
Shallow embedding of the client-side state-synchronization core of
`markdown-ai-canvas`:

* `src/types/index.ts` — `ChatMessage`, `AppState`, `AI_CONFIG`,
  `limitChatHistory`;
* `src/contexts/AppStateContext.tsx` — `appStateReducer`, the action
  wrappers, `sendPromptAndUpdateCode`, `clearAllData`;
* `src/services/aiService.ts` — `AIServiceError`, `AIService.sendRequest`
  (the timeout race) and `handleError`;
* `src/hooks/useToast.ts` — `addToast` and the category wrappers
  `showError` / `showSuccess` / `showWarning` / `showInfo`.

JavaScript `Date` timestamps are modelled as `Nat`; JavaScript `undefined`
for optional fields is modelled as `Option`; a JS numeric `x || d`
(where `0` is falsy) is modelled explicitly.  `process.env.NODE_ENV` is
modelled as production (the development-only branches only change log
output and one error-message string).
-/

/-- `role: 'user' | 'assistant'` from `ChatMessage` in `src/types/index.ts`. -/
inductive Role where
  | user
  | assistant
deriving DecidableEq, Repr

/-- `ChatMessage` from `src/types/index.ts` (timestamp as `Nat`). -/
structure ChatMessage where
  id : String
  role : Role
  content : String
  timestamp : Nat
deriving DecidableEq, Repr

/-- Token usage record of `AIApiResponse` in `src/types/index.ts`. -/
structure Usage where
  promptTokens : Nat
  completionTokens : Nat
deriving DecidableEq, Repr

/-- `AIApiResponse` from `src/types/index.ts`. -/
structure AIApiResponse where
  content : String
  usage : Option Usage
deriving DecidableEq, Repr

/-- `AppState` from `src/types/index.ts`. -/
structure AppState where
  chatHistory : List ChatMessage
  currentCode : String
  isLoading : Bool
  error : Option String
deriving DecidableEq, Repr

/-- `AI_CONFIG` from `src/types/index.ts` (the floating-point `temperature`
field is unused by the verified logic and is omitted). -/
structure AIConfig where
  maxTokens : Nat
  contextLimit : Nat
  timeout : Nat
deriving DecidableEq, Repr

/-- `AI_CONFIG = { temperature: 0.3, maxTokens: 2000, contextLimit: 3,
timeout: 30000 }`. -/
def AI_CONFIG : AIConfig :=
  { maxTokens := 2000, contextLimit := 3, timeout := 30000 }

/-- `limitChatHistory` from `src/types/index.ts`:
`chatHistory.slice(-maxMessages)` on a list longer than `maxMessages`
keeps the final `maxMessages` elements, i.e. drops the first
`length - maxMessages`. -/
def limitChatHistory (chatHistory : List ChatMessage) : List ChatMessage :=
  let maxMessages := AI_CONFIG.contextLimit * 2
  if chatHistory.length ≤ maxMessages then
    chatHistory
  else
    chatHistory.drop (chatHistory.length - maxMessages)

/-- `validateChatHistoryLimit` from `src/types/index.ts`. -/
def validateChatHistoryLimit (chatHistory : List ChatMessage) : Bool :=
  chatHistory.length ≤ AI_CONFIG.contextLimit * 2

/-- `AppStateAction` from `src/contexts/AppStateContext.tsx`. -/
inductive AppStateAction where
  | ADD_MESSAGE (payload : ChatMessage)
  | CLEAR_HISTORY
  | UPDATE_CODE (payload : String)
  | SET_LOADING (payload : Bool)
  | SET_ERROR (payload : Option String)
  | RESET_STATE
deriving DecidableEq, Repr

/-- `initialState` from `src/contexts/AppStateContext.tsx`. -/
def initialState : AppState :=
  { chatHistory := [], currentCode := "", isLoading := false, error := none }

/-- `appStateReducer` from `src/contexts/AppStateContext.tsx`. -/
def appStateReducer (state : AppState) (action : AppStateAction) : AppState :=
  match action with
  | .ADD_MESSAGE payload =>
      let newHistory := state.chatHistory ++ [payload]
      { state with
          chatHistory := limitChatHistory newHistory
          error := none }
  | .CLEAR_HISTORY =>
      { state with chatHistory := [], error := none }
  | .UPDATE_CODE payload =>
      { state with currentCode := payload, error := none }
  | .SET_LOADING payload =>
      { state with isLoading := payload }
  | .SET_ERROR payload =>
      { state with error := payload, isLoading := false }
  | .RESET_STATE =>
      initialState

/-- A sequence of dispatches starting from `initialState`. -/
def runActions (actions : List AppStateAction) : AppState :=
  actions.foldl appStateReducer initialState

/-! ### Helper lemmas about the history cap -/

theorem limitChatHistory_length_le (h : List ChatMessage) :
    (limitChatHistory h).length ≤ 6 := by
  unfold limitChatHistory
  simp only [AI_CONFIG]
  split
  · omega
  · simp only [List.length_drop]
    omega

theorem limitChatHistory_of_le (h : List ChatMessage) (hle : h.length ≤ 6) :
    limitChatHistory h = h := by
  unfold limitChatHistory
  simp only [AI_CONFIG]
  simp [hle]

theorem appStateReducer_history_le (s : AppState) (a : AppStateAction)
    (hs : s.chatHistory.length ≤ 6) :
    (appStateReducer s a).chatHistory.length ≤ 6 := by
  cases a with
  | ADD_MESSAGE payload => exact limitChatHistory_length_le _
  | CLEAR_HISTORY => simp [appStateReducer]
  | UPDATE_CODE payload => simpa [appStateReducer] using hs
  | SET_LOADING payload => simpa [appStateReducer] using hs
  | SET_ERROR payload => simpa [appStateReducer] using hs
  | RESET_STATE => simp [appStateReducer, initialState]

theorem foldl_reducer_history_le (actions : List AppStateAction) :
    ∀ s : AppState, s.chatHistory.length ≤ 6 →
      (actions.foldl appStateReducer s).chatHistory.length ≤ 6 := by
  induction actions with
  | nil => intro s hs; simpa using hs
  | cons a rest ih =>
      intro s hs
      exact ih _ (appStateReducer_history_le s a hs)

/-! ### C1 and C2 -/

/-- C1: `limitChatHistory` returns its input unchanged when the input has at
most `2*N = 6` entries, and otherwise returns exactly the last 6 entries in
their original relative order (the first `length - 6` entries are dropped
from the front). -/
theorem limitChatHistory_spec (h : List ChatMessage) :
    (h.length ≤ 6 → limitChatHistory h = h) ∧
    (h.length > 6 →
      (limitChatHistory h).length = 6 ∧
      h.take (h.length - 6) ++ limitChatHistory h = h) := by
  constructor
  · intro hle
    exact limitChatHistory_of_le h hle
  · intro hgt
    have hne : ¬ h.length ≤ 6 := by omega
    unfold limitChatHistory
    simp only [AI_CONFIG]
    rw [if_neg (by simpa using hne)]
    refine ⟨?_, ?_⟩
    · simp only [List.length_drop]
      omega
    · exact List.take_append_drop _ h

/-- Witness for C1 at a concrete 8-entry history. -/
theorem limitChatHistory_spec_witness :
    (limitChatHistory
        ((List.range 8).map (fun i => ⟨toString i, Role.user, "", i⟩))).length = 6 ∧
    ((List.range 8).map (fun i => (⟨toString i, Role.user, "", i⟩ : ChatMessage))).take 2 ++
      limitChatHistory
        ((List.range 8).map (fun i => ⟨toString i, Role.user, "", i⟩)) =
      (List.range 8).map (fun i => ⟨toString i, Role.user, "", i⟩) := by
  have h := (limitChatHistory_spec
      ((List.range 8).map (fun i => ⟨toString i, Role.user, "", i⟩))).2 (by decide)
  exact ⟨h.1, by simpa using h.2⟩

/-- C2: every state reachable from `initialState` by dispatching reducer
actions has at most `2*N = 6` chat-history entries, and an `ADD_MESSAGE`
dispatched on a state with at most 5 entries appends the new message without
dropping any prior entry (it also clears the stored error). -/
theorem reducer_history_invariant :
    (∀ actions : List AppStateAction,
        (runActions actions).chatHistory.length ≤ 6) ∧
    (∀ (s : AppState) (m : ChatMessage), s.chatHistory.length ≤ 5 →
        (appStateReducer s (.ADD_MESSAGE m)).chatHistory = s.chatHistory ++ [m]) := by
  constructor
  · intro actions
    exact foldl_reducer_history_le actions initialState (by simp [initialState])
  · intro s m hlen
    show limitChatHistory (s.chatHistory ++ [m]) = s.chatHistory ++ [m]
    apply limitChatHistory_of_le
    simp only [List.length_append, List.length_cons, List.length_nil]
    omega

/-- Witness for C2: seven consecutive `ADD_MESSAGE` dispatches stay within
the cap, and an append onto a 5-entry history drops nothing. -/
theorem reducer_history_invariant_witness :
    (runActions ((List.range 7).map
        (fun i => .ADD_MESSAGE ⟨toString i, Role.user, "", i⟩))).chatHistory.length ≤ 6 ∧
    (appStateReducer
        ⟨(List.range 5).map (fun i => ⟨toString i, Role.user, "", i⟩), "", false, none⟩
        (.ADD_MESSAGE ⟨"5", Role.user, "", 5⟩)).chatHistory =
      ((List.range 5).map (fun i => (⟨toString i, Role.user, "", i⟩ : ChatMessage))) ++
        [⟨"5", Role.user, "", 5⟩] := by
  refine ⟨reducer_history_invariant.1 _, ?_⟩
  exact reducer_history_invariant.2
    ⟨(List.range 5).map (fun i => ⟨toString i, Role.user, "", i⟩), "", false, none⟩
    ⟨"5", Role.user, "", 5⟩ (by decide)

/-! ### AI service (`src/services/aiService.ts`) -/

/-- `AIServiceError` from `src/services/aiService.ts` (the optional
`originalError` payload carries no further structure used by the core). -/
structure AIServiceError where
  message : String
  code : String
deriving DecidableEq, Repr

/-- The value thrown by the timeout guard in `AIService.sendRequest`. -/
def timeoutError : AIServiceError :=
  { message := "リクエストがタイムアウトしました。再試行してください。"
    code := "TIMEOUT_ERROR" }

/-- A value caught by `sendRequest`'s `catch`: either an `AIServiceError`
thrown inside the service, or some other JavaScript error, inspected by
`handleError` through its `message`, `status` and `code` fields. -/
inductive CaughtError where
  | service (e : AIServiceError)
  | other (message : String) (status : Option Nat) (code : Option String)
deriving DecidableEq, Repr

/-- JavaScript substring containment `s.includes(pat)` for nonempty `pat`,
via `String.splitOn`. -/
def strIncludes (s pat : String) : Bool :=
  (s.splitOn pat).length > 1

/-- `AIService.handleError` from `src/services/aiService.ts`, with
`NODE_ENV` modelled as production. -/
def handleError (error : CaughtError) : AIServiceError :=
  match error with
  | .service e => e
  | .other message status code =>
      if code = some "ENOTFOUND" ∨ code = some "ECONNREFUSED" ∨
          strIncludes message "network" ∨ strIncludes message "fetch" then
        { message := "接続に失敗しました。ネットワーク接続を確認してください。"
          code := "NETWORK_ERROR" }
      else if status = some 401 ∨ strIncludes message "authentication" ∨
          strIncludes message "api key" then
        { message := "API認証に失敗しました。設定を確認してください。"
          code := "AUTH_ERROR" }
      else if status = some 429 ∨ strIncludes message "rate limit" ∨
          strIncludes message "quota" then
        { message := "リクエスト制限に達しました。しばらく待ってから再試行してください。"
          code := "RATE_LIMIT_ERROR" }
      else
        { message := "AI APIでエラーが発生しました。再試行してください。"
          code := "API_ERROR" }

/-- The `timeout` field computed by the `AIService` constructor:
`config.timeout || AI_CONFIG.timeout` (JS `||`, where `0` and `undefined`
are falsy). -/
def serviceTimeout (configTimeout : Option Nat) : Nat :=
  match configTimeout with
  | some t => if t = 0 then AI_CONFIG.timeout else t
  | none => AI_CONFIG.timeout

/-- `AIService.sendRequest` from `src/services/aiService.ts`.

The `Promise.race` between the API-route request and the timeout guard is
modelled by the time `apiSettleTime` at which the underlying API promise
settles (`none` = it never settles): the API result wins the race exactly
when it settles strictly before `timeoutMs` elapses, and otherwise the
timeout rejection wins and the late result is discarded.  Every rejection
escaping the race passes through `handleError`. -/
def sendRequest (timeoutMs : Nat) (apiSettleTime : Option Nat)
    (apiResult : Except CaughtError AIApiResponse) :
    Except AIServiceError AIApiResponse :=
  let raced : Except CaughtError AIApiResponse :=
    match apiSettleTime with
    | none => .error (.service timeoutError)
    | some t => if t < timeoutMs then apiResult else .error (.service timeoutError)
  match raced with
  | .ok response => .ok response
  | .error e => .error (handleError e)

/-! ### Orchestrator (`src/contexts/AppStateContext.tsx`) -/

/-- The characters removed by JavaScript `String.prototype.trim`: the
ECMAScript WhiteSpace set (TAB, VT, FF, SP, NBSP, ZWNBSP/BOM and the
Space_Separator category: U+1680, U+2000–U+200A, U+202F, U+205F, U+3000)
together with the LineTerminator set (LF, CR, U+2028, U+2029). -/
def isJsWhitespace (c : Char) : Bool :=
  c.toNat == 0x9 || c.toNat == 0xA || c.toNat == 0xB || c.toNat == 0xC ||
    c.toNat == 0xD || c.toNat == 0x20 || c.toNat == 0xA0 ||
    c.toNat == 0x1680 || decide (0x2000 ≤ c.toNat ∧ c.toNat ≤ 0x200A) ||
    c.toNat == 0x2028 || c.toNat == 0x2029 || c.toNat == 0x202F ||
    c.toNat == 0x205F || c.toNat == 0x3000 || c.toNat == 0xFEFF

/-- JavaScript `s.trim()`: strip leading and trailing whitespace. -/
def jsTrim (s : String) : String :=
  ⟨((s.data.dropWhile isJsWhitespace).reverse.dropWhile isJsWhitespace).reverse⟩

/-- `sendPromptAndUpdateCode` from `src/contexts/AppStateContext.tsx`.

The dispatches of the wrappers `setError`, `setLoading`, `addMessage` and
`updateCode` are applied in program order through `appStateReducer`.
`callResult` is the settled outcome of `await aiService.sendRequest(...)`
(every rejection reaching the `catch` block is an `AIServiceError`, whose
`message` becomes the stored error; the `CONFIG_ERROR` throw of
`getAIService` is also covered, since it occurs after
`addMessage(userMessage)` in program order).
`now1`/`now2` are the `Date.now()` readings for the user and assistant
messages.  The returned `Bool` records whether the guarded body ran (i.e.
whether a model round trip was started). -/
def sendPromptAndUpdateCode (s : AppState) (prompt : String) (now1 now2 : Nat)
    (callResult : Except AIServiceError AIApiResponse) : AppState × Bool :=
  if jsTrim prompt = "" ∨ s.isLoading = true then
    (s, false)
  else
    let s1 := appStateReducer s (.SET_ERROR none)
    let s2 := appStateReducer s1 (.SET_LOADING true)
    let userMessage : ChatMessage :=
      { id := "user-" ++ toString now1, role := .user, content := prompt,
        timestamp := now1 }
    let s3 := appStateReducer s2 (.ADD_MESSAGE userMessage)
    match callResult with
    | .ok response =>
        let assistantMessage : ChatMessage :=
          { id := "assistant-" ++ toString now2, role := .assistant,
            content := response.content, timestamp := now2 }
        let s4 := appStateReducer s3 (.ADD_MESSAGE assistantMessage)
        let s5 := appStateReducer s4 (.UPDATE_CODE response.content)
        (appStateReducer s5 (.SET_LOADING false), true)
    | .error e =>
        let s4 := appStateReducer s3 (.SET_ERROR (some e.message))
        (appStateReducer s4 (.SET_LOADING false), true)

/-- `clearAllData` from `src/contexts/AppStateContext.tsx`: dispatches
`CLEAR_HISTORY`, `UPDATE_CODE('')`, `SET_ERROR(null)`, `SET_LOADING(false)`
in that order. -/
def clearAllData (s : AppState) : AppState :=
  appStateReducer
    (appStateReducer
      (appStateReducer
        (appStateReducer s .CLEAR_HISTORY)
        (.UPDATE_CODE ""))
      (.SET_ERROR none))
    (.SET_LOADING false)

/-! ### C3 — happy-path submit scenario -/

/-- C3: from the initial state, a submit of "Write a haiku" whose model call
resolves with content "old pond..." ends with exactly the user turn followed
by the assistant turn in the history, the document text fully replaced by
"old pond...", the busy flag cleared and no stored error. -/
theorem happy_path_scenario (now1 now2 : Nat) :
    ((sendPromptAndUpdateCode initialState "Write a haiku" now1 now2
        (.ok { content := "old pond...", usage := none })).1.chatHistory.map
          (fun m => (m.role, m.content))) =
      [(Role.user, "Write a haiku"), (Role.assistant, "old pond...")] ∧
    (sendPromptAndUpdateCode initialState "Write a haiku" now1 now2
        (.ok { content := "old pond...", usage := none })).1.currentCode =
      "old pond..." ∧
    (sendPromptAndUpdateCode initialState "Write a haiku" now1 now2
        (.ok { content := "old pond...", usage := none })).1.isLoading = false ∧
    (sendPromptAndUpdateCode initialState "Write a haiku" now1 now2
        (.ok { content := "old pond...", usage := none })).1.error = none := by
  have hguard : ¬ (jsTrim "Write a haiku" = "" ∨ initialState.isLoading = true) := by
    decide
  unfold sendPromptAndUpdateCode
  rw [if_neg hguard]
  simp [appStateReducer, initialState, limitChatHistory, AI_CONFIG]

/-! ### C4 — timeout scenario -/

/-- C4: with the default 30000 ms timeout, if the underlying API promise has
not settled strictly before the timeout elapses, `sendRequest` rejects with
an `AIServiceError` of code `TIMEOUT_ERROR`; feeding that rejection into the
submit flow (started on an idle state with empty history and a nonblank
prompt) ends with exactly the user turn in the history, the busy flag
cleared, a non-null stored error, and the document text unchanged. -/
theorem timeout_scenario (s : AppState) (prompt : String) (now1 now2 : Nat)
    (apiSettleTime : Option Nat) (apiResult : Except CaughtError AIApiResponse)
    (hlate : apiSettleTime = none ∨
      ∃ t, apiSettleTime = some t ∧ serviceTimeout none ≤ t)
    (hp : jsTrim prompt ≠ "") (hb : s.isLoading = false) (hh : s.chatHistory = []) :
    ∃ e : AIServiceError,
      sendRequest (serviceTimeout none) apiSettleTime apiResult = .error e ∧
      e.code = "TIMEOUT_ERROR" ∧
      (sendPromptAndUpdateCode s prompt now1 now2 (.error e)).1.chatHistory =
        [{ id := "user-" ++ toString now1, role := .user, content := prompt,
           timestamp := now1 }] ∧
      (sendPromptAndUpdateCode s prompt now1 now2 (.error e)).1.isLoading = false ∧
      (sendPromptAndUpdateCode s prompt now1 now2 (.error e)).1.error ≠ none ∧
      (sendPromptAndUpdateCode s prompt now1 now2 (.error e)).1.currentCode =
        s.currentCode := by
  refine ⟨timeoutError, ?_, rfl, ?_⟩
  · rcases hlate with hnone | ⟨t, ht, htle⟩
    · subst hnone; rfl
    · subst ht
      have hnlt : ¬ t < serviceTimeout none := by omega
      simp [sendRequest, hnlt, handleError]
  · have hguard : ¬ (jsTrim prompt = "" ∨ s.isLoading = true) := by
      rintro (h1 | h2)
      · exact hp h1
      · rw [hb] at h2; exact Bool.false_ne_true h2
    unfold sendPromptAndUpdateCode
    rw [if_neg hguard]
    simp [appStateReducer, limitChatHistory, AI_CONFIG, hh]

/-- Witness for C4: the API promise settles exactly at the 30000 ms deadline,
so the timeout rejection wins and the late `ok` result is discarded. -/
theorem timeout_scenario_witness :
    ∃ e : AIServiceError,
      sendRequest (serviceTimeout none) (some 30000)
          (.ok { content := "late", usage := none }) = .error e ∧
      e.code = "TIMEOUT_ERROR" ∧
      (sendPromptAndUpdateCode initialState "x" 0 0 (.error e)).1.chatHistory =
        [{ id := "user-" ++ toString 0, role := .user, content := "x",
           timestamp := 0 }] ∧
      (sendPromptAndUpdateCode initialState "x" 0 0 (.error e)).1.isLoading = false ∧
      (sendPromptAndUpdateCode initialState "x" 0 0 (.error e)).1.error ≠ none ∧
      (sendPromptAndUpdateCode initialState "x" 0 0 (.error e)).1.currentCode =
        initialState.currentCode :=
  timeout_scenario initialState "x" 0 0 (some 30000)
    (.ok { content := "late", usage := none })
    (Or.inr ⟨30000, rfl, by decide⟩) (by decide) rfl rfl

/-! ### C5 — submit guard -/

/-- C5: submitting a prompt that is blank after trimming, or submitting
while busy, leaves the state completely unchanged and starts no model
call. -/
theorem submit_guard_noop (s : AppState) (prompt : String) (now1 now2 : Nat)
    (callResult : Except AIServiceError AIApiResponse)
    (h : jsTrim prompt = "" ∨ s.isLoading = true) :
    sendPromptAndUpdateCode s prompt now1 now2 callResult = (s, false) := by
  unfold sendPromptAndUpdateCode
  rw [if_pos h]

/-- Witness for C5: submitting while busy is a no-op. -/
theorem submit_guard_noop_witness :
    sendPromptAndUpdateCode ⟨[], "doc", true, none⟩ "hi" 0 0
        (.ok { content := "y", usage := none }) =
      (⟨[], "doc", true, none⟩, false) :=
  submit_guard_noop ⟨[], "doc", true, none⟩ "hi" 0 0
    (.ok { content := "y", usage := none }) (Or.inr rfl)

/-! ### C6 — setError -/

/-- Counterexample to C6 as stated: `setError(null)` does not leave `isBusy`
at its prior value — dispatching `SET_ERROR null` on a busy state clears the
busy flag. -/
theorem setError_null_busy_cex :
    (appStateReducer ⟨[], "", true, none⟩ (.SET_ERROR none)).isLoading ≠
      (⟨[], "", true, none⟩ : AppState).isLoading := by
  decide

/-- C6 (amended): `setError(message)` sets the stored error to `message`
and forces the busy flag to false regardless of whether `message` is
null. -/
theorem setError_forces_idle (s : AppState) (msg : Option String) :
    (appStateReducer s (.SET_ERROR msg)).error = msg ∧
    (appStateReducer s (.SET_ERROR msg)).isLoading = false :=
  ⟨rfl, rfl⟩

/-! ### C7 — setBusy(true) and the stored error -/

/-- Counterexample to C7 as stated: after `setBusy(true)` on a state with a
stored error, the error is still present — `SET_LOADING` does not clear
it. -/
theorem setBusy_true_keeps_error_cex :
    (appStateReducer ⟨[], "", false, some "boom"⟩ (.SET_LOADING true)).error ≠
      none := by
  decide

/-- C7 (amended): `setBusy(true)` leaves the stored error unchanged; in the
submit flow the error is nevertheless null on entering the busy state,
because `setError(null)` is dispatched immediately before
`setBusy(true)`. -/
theorem setBusy_true_error_unchanged (s : AppState) :
    (appStateReducer s (.SET_LOADING true)).error = s.error ∧
    (appStateReducer (appStateReducer s (.SET_ERROR none))
        (.SET_LOADING true)).error = none :=
  ⟨rfl, rfl⟩

/-! ### C8 — reset vs clearAll -/

/-- C8: `RESET_STATE` and `clearAllData` both end in the initial snapshot
(empty history, empty document, not busy, no error), and those two end
states are equal. -/
theorem reset_clearAll_equiv (s : AppState) :
    appStateReducer s .RESET_STATE = initialState ∧
    clearAllData s = initialState ∧
    appStateReducer s .RESET_STATE = clearAllData s :=
  ⟨rfl, rfl, rfl⟩

/-! ### C10 — setBusy frame -/

/-- C10: `setBusy(flag)` changes only the busy flag — history, document
text and stored error are untouched (in particular `setBusy(true)` does not
clear an existing error). -/
theorem setLoading_frame (s : AppState) (flag : Bool) :
    (appStateReducer s (.SET_LOADING flag)).isLoading = flag ∧
    (appStateReducer s (.SET_LOADING flag)).chatHistory = s.chatHistory ∧
    (appStateReducer s (.SET_LOADING flag)).currentCode = s.currentCode ∧
    (appStateReducer s (.SET_LOADING flag)).error = s.error :=
  ⟨rfl, rfl, rfl, rfl⟩

/-! ### Toasts (`src/hooks/useToast.ts`, `src/components/ToastNotification.tsx`) -/

/-- `ToastType` from `src/components/ToastNotification.tsx`. -/
inductive ToastType where
  | error
  | success
  | warning
  | info
deriving DecidableEq, Repr

/-- The `options` object `{ autoClose?: boolean; duration?: number }` passed
to `addToast` and the category wrappers; an absent field is `none`. -/
structure ToastOptions where
  autoClose : Option Bool
  duration : Option Nat
deriving DecidableEq, Repr

/-- `Toast` from `src/components/ToastNotification.tsx` (`autoClose` and
`duration` are optional fields). -/
structure Toast where
  id : String
  type : ToastType
  title : String
  message : String
  autoClose : Option Bool
  duration : Option Nat
deriving DecidableEq, Repr

/-- `addToast` from `src/hooks/useToast.ts`: builds the new toast from the
(possibly absent) options object.  Id generation (`Date.now()` plus a random
suffix) is abstracted into the `id` parameter; the surrounding `setToasts`
append is the registry insertion. -/
def addToast (id : String) (type_ : ToastType) (title message : String)
    (options : Option ToastOptions) : Toast :=
  { id := id, type := type_, title := title, message := message,
    autoClose := options.bind ToastOptions.autoClose,
    duration := options.bind ToastOptions.duration }

/-- The object literal `{ autoClose: options?.autoClose !== false,
duration: options?.duration || d, ...options }` built by each category
wrapper: the two computed defaults, then the spread of `options`, whose
present fields override them. -/
def wrapperOptions (d : Nat) (options : Option ToastOptions) : ToastOptions :=
  let computedAutoClose : Bool :=
    match options.bind ToastOptions.autoClose with
    | some false => false
    | _ => true
  let computedDuration : Nat :=
    match options.bind ToastOptions.duration with
    | some n => if n = 0 then d else n
    | none => d
  match options with
  | none => { autoClose := some computedAutoClose, duration := some computedDuration }
  | some o =>
      { autoClose :=
          match o.autoClose with
          | some b => some b
          | none => some computedAutoClose
        duration :=
          match o.duration with
          | some n => some n
          | none => some computedDuration }

/-- `showError` from `src/hooks/useToast.ts` (default lifetime 5000 ms). -/
def showError (id title message : String) (options : Option ToastOptions) : Toast :=
  addToast id .error title message (some (wrapperOptions 5000 options))

/-- `showSuccess` from `src/hooks/useToast.ts` (default lifetime 3000 ms). -/
def showSuccess (id title message : String) (options : Option ToastOptions) : Toast :=
  addToast id .success title message (some (wrapperOptions 3000 options))

/-- `showWarning` from `src/hooks/useToast.ts` (default lifetime 4000 ms). -/
def showWarning (id title message : String) (options : Option ToastOptions) : Toast :=
  addToast id .warning title message (some (wrapperOptions 4000 options))

/-- `showInfo` from `src/hooks/useToast.ts` (default lifetime 3000 ms). -/
def showInfo (id title message : String) (options : Option ToastOptions) : Toast :=
  addToast id .info title message (some (wrapperOptions 3000 options))

/-! ### C9 — wrapper defaults -/

/-- C9: each category wrapper stores the caller-supplied lifetime in the
created toast whenever one is supplied, and otherwise the category default
(error 5000, warning 4000, success and info 3000); the auto-expire flag
defaults to true when not specified. -/
theorem toast_wrapper_defaults (id title message : String)
    (options : Option ToastOptions) :
    ((options.bind ToastOptions.duration).isSome →
        (showError id title message options).duration =
            options.bind ToastOptions.duration ∧
        (showSuccess id title message options).duration =
            options.bind ToastOptions.duration ∧
        (showWarning id title message options).duration =
            options.bind ToastOptions.duration ∧
        (showInfo id title message options).duration =
            options.bind ToastOptions.duration) ∧
    (options.bind ToastOptions.duration = none →
        (showError id title message options).duration = some 5000 ∧
        (showSuccess id title message options).duration = some 3000 ∧
        (showWarning id title message options).duration = some 4000 ∧
        (showInfo id title message options).duration = some 3000) ∧
    (options.bind ToastOptions.autoClose = none →
        (showError id title message options).autoClose = some true ∧
        (showSuccess id title message options).autoClose = some true ∧
        (showWarning id title message options).autoClose = some true ∧
        (showInfo id title message options).autoClose = some true) := by
  rcases options with _ | ⟨ac, dur⟩
  · refine ⟨?_, ?_, ?_⟩ <;> intro h <;>
      simp_all [showError, showSuccess, showWarning, showInfo, addToast,
        wrapperOptions]
  · rcases dur with _ | n <;> rcases ac with _ | b <;>
      refine ⟨?_, ?_, ?_⟩ <;> intro h <;>
      simp_all [showError, showSuccess, showWarning, showInfo, addToast,
        wrapperOptions]

/-- Witness for C9: a supplied 1234 ms lifetime is kept by `showWarning`,
and with no options `showError` defaults to 5000 ms with auto-expire
true. -/
theorem toast_wrapper_defaults_witness :
    (showWarning "t1" "T" "B" (some ⟨none, some 1234⟩)).duration =
        (some ⟨none, some 1234⟩ : Option ToastOptions).bind ToastOptions.duration ∧
    (showError "t2" "T" "B" none).duration = some 5000 ∧
    (showError "t2" "T" "B" none).autoClose = some true :=
  ⟨((toast_wrapper_defaults "t1" "T" "B" (some ⟨none, some 1234⟩)).1
      (by decide)).2.2.1,
   ((toast_wrapper_defaults "t2" "T" "B" none).2.1 rfl).1,
   ((toast_wrapper_defaults "t2" "T" "B" none).2.2 rfl).1⟩
